import Mathlib

/-!
Verification of the update synchronization core of the weather-mobile
application (src/src/ui.rs). The mutable application state, the Message
type (WeatherUpdate), and each Message handler of the consumption loop
are embedded as pure Lean functions; a handler returns the new state
together with the observable Effects it produced (messages enqueued on
the dispatch channel, fetch and search tasks spawned, preference saves
requested). The bodies of the spawned background tasks are embedded as
outcome functions parameterised by the result of upgrading the weak
state handle and by the availability of the state lock, and as explicit
event traces recording where the lock is acquired, released, and which
awaits happen in between.

Types that live in collaborator modules outside src/ (the Units enum,
LocationPoint, WeatherPreferences, the weather payload records and the
WeatherUpdate enum from api/, preferences.rs and rpc.rs) are
reconstructed from their use sites in src/src/ui.rs, which pin every
variant and every field the core touches.
-/

namespace WeatherMobile

/-- Unit system (api/units.rs, reconstructed from its use sites in ui.rs:
the two variants Metric and Imperial are matched exhaustively). -/
inductive Units
  | Metric
  | Imperial
deriving DecidableEq, Repr

/-- A resolved or candidate location (api/location.rs, reconstructed from
use sites: fields location, lat, lon). Latitude and longitude are f64 in
the source; the core never computes on them, only stores and copies them,
so they are embedded as integers. -/
structure LocationPoint where
  location : String
  lat : Int
  lon : Int
deriving DecidableEq, Repr

/-- Persisted user preferences (preferences.rs, reconstructed from use
sites: fields location, lat, lon, units). -/
structure WeatherPreferences where
  location : String
  lat : Int
  lon : Int
  units : Units
deriving DecidableEq, Repr

/-- One status entry of a weather observation; ui.rs reads status[0].icon. -/
structure WeatherStatus where
  icon : String
deriving DecidableEq, Repr

/-- Current (or hourly) weather observation (api/weather.rs, reconstructed
from the fields ui.rs reads). Numeric f64 fields are embedded as integers
and the formatted time as a string, since the core only renders them. -/
structure CurrentWeather where
  temp : Int
  feels_like : Int
  pressure : Int
  humidity : Int
  uvi : Int
  visibility : Option Int
  wind_speed : Int
  pop : Int
  time_display : String
  status : List WeatherStatus
deriving DecidableEq, Repr

/-- Modelled from the spec: the daily forecast record lives in
api/weather.rs outside src/; ui.rs forwards it opaquely to the daily
view, so it is embedded as an opaque record. -/
structure DailyWeather where
  payload : String
deriving DecidableEq, Repr

/-- Modelled from the spec: the weather alert record lives in
api/weather.rs outside src/; ui.rs forwards it opaquely to the alerts
view, so it is embedded as an opaque record. -/
structure WeatherAlert where
  payload : String
deriving DecidableEq, Repr

/-- Full fetch payload (api/weather.rs, reconstructed from the fields
ui.rs reads in update_weather: units is an Option and is unwrapped with
expect("units")). -/
structure WeatherData where
  units : Option Units
  current : CurrentWeather
  daily : List DailyWeather
  hourly : List CurrentWeather
  alerts : List WeatherAlert
deriving DecidableEq, Repr

/-- The Message type (rpc.rs WeatherUpdate, reconstructed from the
exhaustive match in WeatherApplication::update and from every send site
in ui.rs). -/
inductive WeatherUpdate
  | Data (data : Option WeatherData)
  | Location (location : Option String)
  | SearchLocations (query : String)
  | SetLocations (locations : Option (List LocationPoint))
  | SavePreferences (preferences : WeatherPreferences)
  | SetUnits (units : Units)
  | Refresh
deriving DecidableEq, Repr

/-- The mutable application state guarded by the Arc-Mutex
(struct WeatherApplication, ui.rs lines 41-61), restricted to its
observable attributes: each widget is represented by the fields ui.rs
reads or writes on it (text or markup content, visibility, the results
model, active id and popup flag of the results combo box). pwd embeds
the value of current_dir(), constant for the whole run (icon_path,
ui.rs line 64). The sender and mutex fields are elided: every claim
concerns the loaded application, where both are present. -/
structure WeatherApplication where
  active : Bool
  pwd : String
  units_switch_state : Bool
  location_text : String
  location_visible : Bool
  location_search_text : String
  location_search_visible : Bool
  location_search_button_visible : Bool
  location_results_model : List LocationPoint
  location_results_visible : Bool
  location_results_popped_up : Bool
  location_results_active_id : Option String
  refresh_button_visible : Bool
  temperature_markup : String
  feels_like_markup : String
  current_details_markup : String
  current_picture_filename : String
  alerts_list : List WeatherAlert
  daily_list : List DailyWeather
  daily_visible : Bool
  hourly_list : List CurrentWeather
  hourly_visible : Bool
  stack_buttons_visible : Bool
  stack_visible : Bool
  preferences : Option WeatherPreferences
deriving DecidableEq, Repr

/-- Observable effects of running one handler of the consumption loop:
messages enqueued on the dispatch channel, weather-fetch tasks spawned
(identified by the LocationPoint of interest, request_weather ui.rs
line 375), search tasks spawned (identified by the query), and direct
preference saves. -/
structure Effects where
  sent : List WeatherUpdate
  fetches : List LocationPoint
  searches : List String
  saved : List WeatherPreferences
deriving DecidableEq, Repr

/-- The empty effect record: a handler that enqueues nothing and spawns
nothing. -/
def noEffects : Effects :=
  { sent := [], fetches := [], searches := [], saved := [] }

/-- get_units (ui.rs lines 617-626): the unit system of the stored
preferences, defaulting to Metric when no preferences are set. -/
def get_units (s : WeatherApplication) : Units :=
  match s.preferences with
  | some prefs =>
    match prefs.units with
    | Units.Metric => Units.Metric
    | Units.Imperial => Units.Imperial
  | none => Units.Metric

/-- icon_path (ui.rs lines 63-71): the icon file under the current
working directory, falling back to the unknown icon. -/
def icon_path (pwd : String) (icon : Option String) : String :=
  match icon with
  | some icon => pwd ++ "/icons/" ++ icon ++ ".png"
  | none => pwd ++ "/icons/unknown.png"

/-- current_picture_path (ui.rs lines 73-81): the icon of the first
status entry when present, the unknown icon otherwise. -/
def current_picture_path (pwd : String) (current : Option CurrentWeather) : String :=
  match current with
  | some current =>
    match current.status with
    | stat :: _ => icon_path pwd (some stat.icon)
    | [] => icon_path pwd none
  | none => icon_path pwd none

/-- Modelled from the spec: Units::temperature_value lives in
api/units.rs outside src/; the spec only requires that displayed values
are rendered under the active unit system, so it is embedded as a
unit-tagged rendering of the raw value. -/
def temperature_value (u : Units) (v : Int) : String :=
  match u with
  | Units.Metric => toString v ++ " C"
  | Units.Imperial => toString v ++ " F"

/-- Modelled from the spec: Units::speed_value lives in api/units.rs
outside src/; embedded as a unit-tagged rendering of the raw value. -/
def speed_value (u : Units) (v : Int) : String :=
  match u with
  | Units.Metric => toString v ++ " km/h"
  | Units.Imperial => toString v ++ " mph"

/-- The details markup built by update_current_weather for a present
observation (ui.rs lines 449-464). -/
def current_details_text (units : Units) (current : CurrentWeather) : String :=
  "\n<b>At</b> " ++ current.time_display ++
  "\nPressure: " ++ toString current.pressure ++
  "\nHumidity: " ++ toString current.humidity ++
  "\nUV Index: " ++ toString current.uvi ++
  "\nVisibility: " ++ toString (current.visibility.getD 0) ++
  "\nWind Speed: " ++ speed_value units current.wind_speed ++
  "\nPrecipitation: " ++ toString (current.pop * 100) ++ "%\n            "

/-- update_units (ui.rs lines 611-615): store the new unit system in the
preferences when preferences exist; otherwise do nothing. -/
def update_units (s : WeatherApplication) (units : Units) : WeatherApplication :=
  match s.preferences with
  | some prefs => { s with preferences := some { prefs with units := units } }
  | none => s

/-- update_daily_weather (ui.rs lines 419-427): populate and show the
daily view, or empty and hide it. -/
def update_daily_weather (s : WeatherApplication) (daily : Option (List DailyWeather)) :
    WeatherApplication :=
  match daily with
  | some daily => { s with daily_list := daily, daily_visible := true }
  | none => { s with daily_list := [], daily_visible := false }

/-- update_hourly_weather (ui.rs lines 429-437): populate and show the
hourly view, or empty and hide it. -/
def update_hourly_weather (s : WeatherApplication) (hourly : Option (List CurrentWeather)) :
    WeatherApplication :=
  match hourly with
  | some hourly => { s with hourly_list := hourly, hourly_visible := true }
  | none => { s with hourly_list := [], hourly_visible := false }

/-- update_alerts (ui.rs lines 475-481): populate the alerts view, or
empty it; its visibility is never touched here. -/
def update_alerts (s : WeatherApplication) (weather_alerts : Option (List WeatherAlert)) :
    WeatherApplication :=
  match weather_alerts with
  | some weather_alerts => { s with alerts_list := weather_alerts }
  | none => { s with alerts_list := [] }

/-- update_current_image (ui.rs lines 439-442): point the picture at the
icon of the observation. -/
def update_current_image (s : WeatherApplication) (current : Option CurrentWeather) :
    WeatherApplication :=
  { s with current_picture_filename := current_picture_path s.pwd current }

/-- update_current_weather (ui.rs lines 444-473): render the observation
under the active unit system, or show the invalid-data text. The absent
branch rewrites the temperature and feels-like labels and the picture
only; the details markup is left as it was. -/
def update_current_weather (s : WeatherApplication) (current : Option CurrentWeather) :
    WeatherApplication :=
  match current with
  | some current =>
    let units := get_units s
    let s := { s with
      temperature_markup := "<big>" ++ temperature_value units current.temp ++ "</big>",
      feels_like_markup :=
        "<big>Feels like: " ++ temperature_value units current.feels_like ++ "</big>",
      current_details_markup := current_details_text units current }
    update_current_image s (some current)
  | none =>
    let s := { s with
      temperature_markup := "<big>Invalid Data</big>",
      feels_like_markup := "Please try another city name!" }
    update_current_image s none

/-- update_weather (ui.rs lines 483-497): on a present payload, unwrap
the units with expect("units") (embedded as the error case), store them,
then render current, daily, hourly and alerts; on an absent payload,
clear the projections. -/
def update_weather (s : WeatherApplication) (weather : Option WeatherData) :
    Except String WeatherApplication :=
  match weather with
  | some weather =>
    match weather.units with
    | some units =>
      let s := update_units s units
      let s := update_current_weather s (some weather.current)
      let s := update_daily_weather s (some weather.daily)
      let s := update_hourly_weather s (some weather.hourly)
      let s := update_alerts s (some weather.alerts)
      Except.ok s
    | none => Except.error "units"
  | none =>
    let s := update_current_weather s none
    let s := update_daily_weather s none
    let s := update_hourly_weather s none
    let s := update_alerts s none
    Except.ok s

/-- request_weather (ui.rs lines 375-401): spawn the fetch task for the
given point of interest; the handler itself mutates nothing. -/
def request_weather (s : WeatherApplication) (interest : LocationPoint) :
    WeatherApplication × Effects :=
  (s, { noEffects with fetches := [interest] })

/-- refresh_weather (ui.rs lines 365-373): re-issue the stored location
as a fetch when preferences exist; otherwise do nothing. -/
def refresh_weather (s : WeatherApplication) : WeatherApplication × Effects :=
  match s.preferences with
  | some prefs =>
    request_weather s { location := prefs.location, lat := prefs.lat, lon := prefs.lon }
  | none => (s, noEffects)

/-- search_location (ui.rs lines 499-523): an empty query is dropped;
otherwise spawn the search task. The hiding of the location-entry
widgets happens inside the spawned task, not in the handler. -/
def search_location (s : WeatherApplication) (search_query : String) :
    WeatherApplication × Effects :=
  if search_query.length == 0 then (s, noEffects)
  else (s, { noEffects with searches := [search_query] })

/-- update_location_results (ui.rs lines 541-570): with a present list,
store it as the results model and show the combo; a singleton is
auto-selected (active id set, weather requested for it), anything else
pops the picker up. With an absent list, enqueue Location(None). The
combo changed signal fired by set_active_id runs under the held state
lock, so its try_lock fails and it is dropped (spec section 7,
LockContention). -/
def update_location_results (s : WeatherApplication)
    (location_results : Option (List LocationPoint)) : WeatherApplication × Effects :=
  match location_results with
  | some location_results =>
    let results_count := location_results.length
    let first_result := if results_count == 1 then location_results.head? else none
    let s := { s with
      location_results_model := location_results,
      location_results_visible := true }
    match results_count with
    | 1 =>
      match first_result with
      | some first =>
        let s := { s with location_results_active_id := some first.location }
        request_weather s first
      | none => (s, noEffects)
    | _ => ({ s with location_results_popped_up := true }, noEffects)
  | none => (s, { noEffects with sent := [WeatherUpdate.Location none] })

/-- update_location (ui.rs lines 572-595): a present location shows the
resolved-location UI; an absent one resets to the no-location state,
clearing current, daily and hourly projections (alerts are not touched
here) and hiding the stack. -/
def update_location (s : WeatherApplication) (location : Option String) :
    WeatherApplication :=
  match location with
  | some location =>
    { s with
      location_visible := true,
      location_search_visible := false,
      location_results_visible := false,
      location_search_button_visible := false,
      refresh_button_visible := true,
      daily_visible := true,
      location_text := location,
      stack_buttons_visible := true,
      stack_visible := true }
  | none =>
    let s := { s with
      location_text := "",
      location_visible := false,
      location_search_visible := true,
      location_search_button_visible := true,
      refresh_button_visible := false,
      daily_visible := false,
      location_search_text := "" }
    let s := update_current_weather s none
    let s := update_daily_weather s none
    let s := update_hourly_weather s none
    { s with stack_buttons_visible := false, stack_visible := false }

/-- save_preferences (ui.rs lines 607-609): write-through to the
preference store. -/
def save_preferences (s : WeatherApplication) (preferences : WeatherPreferences) :
    WeatherApplication × Effects :=
  (s, { noEffects with saved := [preferences] })

/-- update (ui.rs lines 403-413): the dispatcher of the consumption
loop, one handler per Message variant. The only panic reachable in a
handler of the loaded application is the expect("units") in
update_weather, surfaced as the error case. -/
def update (s : WeatherApplication) (u : WeatherUpdate) :
    Except String (WeatherApplication × Effects) :=
  match u with
  | WeatherUpdate.Data data => (update_weather s data).map (fun s => (s, noEffects))
  | WeatherUpdate.Location location => Except.ok (update_location s location, noEffects)
  | WeatherUpdate.SearchLocations query => Except.ok (search_location s query)
  | WeatherUpdate.SetLocations locations => Except.ok (update_location_results s locations)
  | WeatherUpdate.SavePreferences preferences => Except.ok (save_preferences s preferences)
  | WeatherUpdate.SetUnits units => Except.ok (update_units s units, noEffects)
  | WeatherUpdate.Refresh => Except.ok (refresh_weather s)

/-- Outcome of running a spawned background task or a UI callback:
either the body panicked, or it ran to its end having sent the listed
messages into the dispatch channel. -/
inductive TaskOutcome
  | panicked
  | ran (sent : List WeatherUpdate)
deriving DecidableEq, Repr

/-- Body of the async block spawned by request_weather (ui.rs lines
378-400), parameterised by the result of upgrading the weak handle, by
whether try_lock succeeds, and by the fetch result. The source runs
mutex.upgrade().unwrap().try_lock(): an expired handle (upgrade gives
None) makes unwrap panic. With the lock, the task builds new
preferences from the point of interest and the stored units, fetches,
then sends Data, Location and SavePreferences. A failed try_lock falls
through the if-let silently. -/
def run_request_weather_task (upgraded : Option WeatherApplication) (lock_free : Bool)
    (fetched : Option WeatherData) (interest : LocationPoint) : TaskOutcome :=
  match upgraded with
  | none => TaskOutcome.panicked
  | some app =>
    if lock_free then
      let new_prefs : WeatherPreferences :=
        { location := interest.location, lat := interest.lat, lon := interest.lon,
          units := get_units app }
      TaskOutcome.ran
        [WeatherUpdate.Data fetched,
         WeatherUpdate.Location (some new_prefs.location),
         WeatherUpdate.SavePreferences new_prefs]
    else TaskOutcome.ran []

/-- Body of the async block spawned by search_location (ui.rs lines
507-522), parameterised like the fetch task. An expired handle makes
mutex.upgrade().unwrap() panic; with the lock, the task hides the
location-entry widgets, searches, and sends SetLocations; a failed
try_lock only logs. -/
def run_search_location_task (upgraded : Option WeatherApplication) (lock_free : Bool)
    (locations : Option (List LocationPoint)) : TaskOutcome :=
  match upgraded with
  | none => TaskOutcome.panicked
  | some _ =>
    if lock_free then TaskOutcome.ran [WeatherUpdate.SetLocations locations]
    else TaskOutcome.ran []

/-- The units-switch connect_state_notify callback (ui.rs lines
259-274): on toggle, upgrade the weak handle (unwrap panics when it is
expired), try the lock, and when held send SetUnits for the switch
position followed by Refresh. -/
def units_switch_callback (upgraded : Bool) (lock_free : Bool) (metric : Bool) : TaskOutcome :=
  if upgraded then
    if lock_free then
      let units := if metric then Units.Metric else Units.Imperial
      TaskOutcome.ran [WeatherUpdate.SetUnits units, WeatherUpdate.Refresh]
    else TaskOutcome.ran []
  else TaskOutcome.panicked

/-- One event in the control flow of a spawned task body: acquiring the
state lock (a successful try_lock creating the guard), dropping the
guard at the end of its scope, awaiting the network or search I/O, and
awaiting a channel send. -/
inductive TaskEvent
  | lockAcquire
  | lockRelease
  | ioAwait
  | channelSendAwait
deriving DecidableEq, Repr

/-- Whether some await event of the trace happens while the lock depth
is positive, scanning from the given starting depth. -/
def holds_lock_at_await_from (depth : Nat) : List TaskEvent → Bool
  | [] => false
  | TaskEvent.lockAcquire :: rest => holds_lock_at_await_from (depth + 1) rest
  | TaskEvent.lockRelease :: rest => holds_lock_at_await_from (depth - 1) rest
  | TaskEvent.ioAwait :: rest => decide (0 < depth) || holds_lock_at_await_from depth rest
  | TaskEvent.channelSendAwait :: rest =>
      decide (0 < depth) || holds_lock_at_await_from depth rest

/-- Whether some await of the trace happens while the state lock is
held. -/
def holds_lock_at_await (trace : List TaskEvent) : Bool :=
  holds_lock_at_await_from 0 trace

/-- Event trace of the request_weather task body on its success path
(handle upgraded, try_lock succeeded), read off ui.rs lines 379-399 in
order: the guard bound by the if-let lives until the end of the block,
so the await of get_weather_data and the three send_async awaits all
happen before the guard is dropped. -/
def request_weather_task_trace : List TaskEvent :=
  [TaskEvent.lockAcquire, TaskEvent.ioAwait, TaskEvent.channelSendAwait,
   TaskEvent.channelSendAwait, TaskEvent.channelSendAwait, TaskEvent.lockRelease]

/-- Event trace of the search_location task body on its success path,
read off ui.rs lines 508-521 in order: the guard bound by the Ok arm of
the match lives until the end of the arm, so the await of
search_locations and the send_async await happen before the guard is
dropped. -/
def search_location_task_trace : List TaskEvent :=
  [TaskEvent.lockAcquire, TaskEvent.ioAwait, TaskEvent.channelSendAwait,
   TaskEvent.lockRelease]

/-- The application state right after construction (ui.rs lines 84-226):
no location resolved, search widgets visible, results combo and refresh
button hidden, no preferences. -/
def s0 : WeatherApplication :=
  { active := true
    pwd := "/app"
    units_switch_state := false
    location_text := ""
    location_visible := false
    location_search_text := ""
    location_search_visible := true
    location_search_button_visible := true
    location_results_model := []
    location_results_visible := false
    location_results_popped_up := false
    location_results_active_id := none
    refresh_button_visible := false
    temperature_markup := ""
    feels_like_markup := ""
    current_details_markup := ""
    current_picture_filename := ""
    alerts_list := []
    daily_list := []
    daily_visible := false
    hourly_list := []
    hourly_visible := false
    stack_buttons_visible := true
    stack_visible := true
    preferences := none }

/-- A concrete stored preference record. -/
def prefs0 : WeatherPreferences :=
  { location := "Oslo", lat := 59, lon := 10, units := Units.Metric }

/-- A loaded state with preferences set. -/
def s1 : WeatherApplication := { s0 with preferences := some prefs0 }

/-- A state showing a resolved location with some rendered details. -/
def s2 : WeatherApplication :=
  { s1 with
    location_text := "Oslo"
    location_visible := true
    current_details_markup := "stale details A" }

/-- The same state with different rendered details. -/
def s3 : WeatherApplication := { s2 with current_details_markup := "stale details B" }

/-- A concrete candidate location. -/
def lp0 : LocationPoint := { location := "Paris", lat := 48, lon := 2 }

/-- A second concrete candidate location. -/
def lp1 : LocationPoint := { location := "Paris, Texas", lat := 33, lon := -95 }

/-- C1: the claim says a task whose weak handle fails to resolve at
completion time abandons its work silently, never panicking. In the
source both task bodies run mutex.upgrade().unwrap() first, so an
expired handle makes the fetch task and the search task panic on the
unwrap instead of abandoning silently. -/
theorem c1_expired_handle_panics :
    run_request_weather_task none true none lp0 = TaskOutcome.panicked ∧
    run_search_location_task none true none = TaskOutcome.panicked :=
  ⟨rfl, rfl⟩

/-- C2: the claim says the state lock is not held at any asynchronous
I/O suspension point of a spawned task. In the source the guard created
by try_lock is scoped over the whole async block, so both the fetch
task and the search task hold the lock across their network or search
await (and across the subsequent channel-send awaits). -/
theorem c2_lock_held_across_await :
    holds_lock_at_await request_weather_task_trace = true ∧
    holds_lock_at_await search_location_task_trace = true := by decide

/-- C3 counterexample: handling SetLocations with the empty candidate
list Some([]) from the concrete state s0 does not yield the end state
of handling Location(None): it shows and pops up the empty results
picker and clears no weather projection. -/
theorem c3_counterexample :
    (update_location_results s0 (some [])).1 ≠ update_location s0 none := by decide

/-- C3 amended: handling SetLocations(None) leaves the state unchanged
and enqueues Location(None), so draining that enqueued message yields
exactly the end state of handling Location(None) directly; handling
SetLocations(Some([])) instead shows and pops up the empty results
picker. -/
theorem c3_amended (s : WeatherApplication) :
    update_location_results s none =
      (s, { noEffects with sent := [WeatherUpdate.Location none] }) ∧
    update_location (update_location_results s none).1 none = update_location s none ∧
    (update_location_results s (some [])).1.location_results_visible = true ∧
    (update_location_results s (some [])).1.location_results_popped_up = true :=
  ⟨rfl, rfl, rfl, rfl⟩

/-- C4 counterexample: at the concrete loaded state s1, the handler for
SetUnits(Imperial) updates the stored preference but produces the empty
effect record, so no RefreshRequested is enqueued by the handler. -/
theorem c4_counterexample :
    update s1 (WeatherUpdate.SetUnits Units.Imperial) =
      Except.ok ({ s1 with preferences := some { prefs0 with units := Units.Imperial } },
        noEffects) ∧
    WeatherUpdate.Refresh ∉ noEffects.sent := by
  exact ⟨rfl, by decide⟩

/-- C4 amended: the consumption-loop handler for UnitsChanged(u) only
updates the stored unit preference (when preferences exist) and
enqueues nothing; the RefreshRequested message is enqueued by the
units-switch UI callback, which sends UnitsChanged followed by
RefreshRequested, so displayed values still reconvert. -/
theorem c4_amended (s : WeatherApplication) (prefs : WeatherPreferences) (u : Units)
    (m : Bool) (h : s.preferences = some prefs) :
    update s (WeatherUpdate.SetUnits u) =
      Except.ok ({ s with preferences := some { prefs with units := u } }, noEffects) ∧
    units_switch_callback true true m =
      TaskOutcome.ran
        [WeatherUpdate.SetUnits (if m then Units.Metric else Units.Imperial),
         WeatherUpdate.Refresh] := by
  refine ⟨?_, rfl⟩
  simp only [update, update_units, h]

/-- C4 amended, witness at the concrete state s1 with the Imperial unit
and the switch in the metric position. -/
theorem c4_amended_witness :
    s1.preferences = some prefs0 ∧
    (update s1 (WeatherUpdate.SetUnits Units.Imperial) =
        Except.ok ({ s1 with preferences := some { prefs0 with units := Units.Imperial } },
          noEffects) ∧
      units_switch_callback true true true =
        TaskOutcome.ran
          [WeatherUpdate.SetUnits (if true then Units.Metric else Units.Imperial),
           WeatherUpdate.Refresh]) :=
  ⟨rfl, c4_amended s1 prefs0 Units.Imperial true rfl⟩

/-- C5 counterexample: handling DataFetched(None) does not clear the
current-details projection: from the two concrete states s2 and s3,
which differ only in the previously rendered details markup, the
handler keeps the respective stale markup, so the Currently page still
shows the previous weather content. -/
theorem c5_counterexample :
    (update_weather s2 none).map (fun t => t.current_details_markup) =
      Except.ok "stale details A" ∧
    (update_weather s3 none).map (fun t => t.current_details_markup) =
      Except.ok "stale details B" :=
  ⟨rfl, rfl⟩

/-- C5 amended: for every state, handling DataFetched(None) replaces
the temperature and feels-like labels with the invalid-data texts and
the picture with the unknown icon, clears and hides the daily and
hourly projections and clears the alerts, and leaves every other field
unchanged, the stored location, the visibility flags, the preferences
and the current-details markup included. -/
theorem c5_amended (s : WeatherApplication) :
    update_weather s none =
      Except.ok { s with
        temperature_markup := "<big>Invalid Data</big>",
        feels_like_markup := "Please try another city name!",
        current_picture_filename := icon_path s.pwd none,
        daily_list := [],
        daily_visible := false,
        hourly_list := [],
        hourly_visible := false,
        alerts_list := [] } :=
  rfl

/-- C6 counterexample: at the concrete state s1 and candidate lp0,
handling SetLocations(Some([lp0])) does not yield the end state of
directly requesting weather for lp0: the handler additionally stores
the candidate in the results model, shows the combo and sets its active
id. -/
theorem c6_counterexample :
    (update_location_results s1 (some [lp0])).1 ≠ (request_weather s1 lp0).1 := by decide

/-- C6 amended: handling SetLocations with a single candidate issues
exactly the weather-fetch request that directly requesting weather for
that candidate issues, but the end state additionally has the candidate
stored as the results model, the results combo visible and its active
id set to the candidate name. -/
theorem c6_amended (s : WeatherApplication) (p : LocationPoint) :
    update_location_results s (some [p]) =
      ({ s with
          location_results_model := [p],
          location_results_visible := true,
          location_results_active_id := some p.location },
        { noEffects with fetches := [p] }) ∧
    request_weather s p = (s, { noEffects with fetches := [p] }) :=
  ⟨rfl, rfl⟩

/-- C7: handling RefreshRequested in a state where no preferences have
ever been set is a no-op: the state is unchanged and no fetch task is
spawned. -/
theorem c7_refresh_noop (s : WeatherApplication) (h : s.preferences = none) :
    update s WeatherUpdate.Refresh = Except.ok (s, noEffects) := by
  simp only [update, refresh_weather, h]

/-- C7 witness at the freshly constructed state s0, which has no
preferences. -/
theorem c7_refresh_noop_witness :
    s0.preferences = none ∧
    update s0 WeatherUpdate.Refresh = Except.ok (s0, noEffects) :=
  ⟨rfl, c7_refresh_noop s0 rfl⟩

/-- C8: handling SetLocations with a candidate list of two or more
entries stores the list as the results model, shows the results combo
and pops the picker up, and produces no effect: in particular zero
weather-fetch requests are issued. -/
theorem c8_picker (s : WeatherApplication) (ls : List LocationPoint)
    (h : 2 ≤ ls.length) :
    update_location_results s (some ls) =
      ({ s with
          location_results_model := ls,
          location_results_visible := true,
          location_results_popped_up := true },
        noEffects) := by
  match ls, h with
  | a :: b :: t, _ => rfl

/-- C8 witness at the concrete state s0 with the two Paris candidates. -/
theorem c8_picker_witness :
    2 ≤ ([lp0, lp1] : List LocationPoint).length ∧
    update_location_results s0 (some [lp0, lp1]) =
      ({ s0 with
          location_results_model := [lp0, lp1],
          location_results_visible := true,
          location_results_popped_up := true },
        noEffects) :=
  ⟨by decide, c8_picker s0 [lp0, lp1] (by decide)⟩

/-- C9: handling SetUnits(u) in a state with no preferences leaves the
state unchanged with no effect, and get_units still yields the default
Metric. -/
theorem c9_units_dropped (s : WeatherApplication) (u : Units)
    (h : s.preferences = none) :
    update s (WeatherUpdate.SetUnits u) = Except.ok (s, noEffects) ∧
    get_units s = Units.Metric := by
  refine ⟨?_, ?_⟩ <;> simp only [update, update_units, get_units, h]

/-- C9 witness at the freshly constructed state s0 with the Imperial
unit. -/
theorem c9_units_dropped_witness :
    s0.preferences = none ∧
    (update s0 (WeatherUpdate.SetUnits Units.Imperial) = Except.ok (s0, noEffects) ∧
      get_units s0 = Units.Metric) :=
  ⟨rfl, c9_units_dropped s0 Units.Imperial rfl⟩

/-- C10: handling DataFetched(Some(w)) succeeds exactly when w carries
a units field; a payload without units reaches the expect("units")
branch, embedded as the error case carrying the expect message. -/
theorem c10_units_expect_guard (s : WeatherApplication) (w : WeatherData) :
    (update_weather s (some w)).toOption.isSome = w.units.isSome ∧
    update_weather s (some { w with units := none }) = Except.error "units" := by
  obtain ⟨u, current, daily, hourly, alerts⟩ := w
  refine ⟨?_, rfl⟩
  cases u <;> rfl

end WeatherMobile
